import Mathlib

/-!
Verification development for the ingia visitor check-in platform.

The shallow embedding below models the visit lifecycle operations of the
repository: the public submission intake (app/api/visits/submit/route.ts),
the dashboard approve and deny handlers (app/dashboard/page.tsx), the deny
API route (app/api/visits/[visitId]/deny) and the checkout API route
(app/api/visits/[visitId]/checkout/route.ts), together with the data model
of the supabase migration (premises, forms, qrcodes, profiles, visits).

Conventions of the embedding:
 - database rows are structures over String ids and Nat timestamps; the
   database-generated uuid of a freshly inserted visit is passed in as a
   parameter;
 - a supabase single() or maybeSingle() read is modelled by maybeSingle,
   which yields a row exactly when the filter matches exactly one row
   (zero rows and multiple rows both land in the error / null branch the
   handlers take);
 - JavaScript truthiness of an optional string value is modelled by truthy
   (present and non-empty);
 - store-level failures (connectivity, constraint violations) are not
   modelled; every modelled update on the store itself succeeds.
-/

namespace Ingia

/-- One step of the key normalization of the submit route: characters are
lowercased and each maximal run of whitespace is replaced by a single
underscore, as in key.toLowerCase().replace of whitespace-runs by an
underscore. The boolean argument records whether the previous character was
whitespace (so the current run has already emitted its underscore). -/
def normChars : List Char → Bool → List Char
  | [], _ => []
  | c :: rest, prevWS =>
    if c.isWhitespace then
      (if prevWS then [] else ['_']) ++ normChars rest true
    else
      c.toLower :: normChars rest false

/-- Field-name normalization used by the submit route: lower-case the key
and collapse whitespace runs to underscores. -/
def normalizeKey (s : String) : String := ⟨normChars s.data false⟩

/-- Lookup in a JavaScript-object-like association list. -/
def objGet (m : List (String × String)) (k : String) : Option String :=
  (m.find? (fun p => p.1 == k)).map (fun p => p.2)

/-- Assignment in a JavaScript-object-like association list: overwrites an
existing binding in place, otherwise appends (JS property insertion order). -/
def objSet (m : List (String × String)) (k : String) (v : String) :
    List (String × String) :=
  if m.any (fun p => p.1 == k) then
    m.map (fun p => if p.1 == k then (k, v) else p)
  else m ++ [(k, v)]

/-- The normalizedFormData object of the submit route: every key of the raw
submission is normalized; later entries overwrite earlier ones that
normalize to the same key. -/
def normalizeObj (m : List (String × String)) : List (String × String) :=
  m.foldl (fun acc p => objSet acc (normalizeKey p.1) p.2) []

/-- JavaScript truthiness of an optional string field value: present and
not the empty string. -/
def truthy : Option String → Bool
  | some s => !s.isEmpty
  | none => false

/-- JavaScript a or-else b on optional string values: a when truthy,
otherwise b. -/
def jsOr (a b : Option String) : Option String := if truthy a then a else b

/-- JavaScript String.trim: strip whitespace from both ends. -/
def jsTrim (s : String) : String :=
  ⟨((s.data.dropWhile Char.isWhitespace).reverse.dropWhile Char.isWhitespace).reverse⟩

/-- A supabase single()/maybeSingle() read: a row is produced exactly when
the filter matches exactly one row; zero matches and multiple matches both
take the null/error branch of the calling handler. -/
def maybeSingle {α : Type} (l : List α) (p : α → Bool) : Option α :=
  match l.filter p with
  | [x] => some x
  | _ => none

/-- A row of the profiles table (visitor identities): the columns the
submit route touches. The insert of the route writes full_name and
phone_number only; its email column write is commented out in the source. -/
structure Profile where
  id : String
  full_name : Option String
  phone_number : Option String
  email : Option String
  deriving DecidableEq

/-- A row of the premises table: the columns the routes touch. -/
structure Premise where
  id : String
  owner_id : Option String
  deriving DecidableEq

/-- A row of the forms table: the columns the submit route touches. -/
structure Form where
  id : String
  premise_id : String
  is_active : Bool
  deriving DecidableEq

/-- A row of the qrcodes table: the columns the submit route touches. -/
structure QRCode where
  id : String
  form_id : String
  premise_id : String
  qr_identifier : String
  is_active : Bool
  deriving DecidableEq

/-- A row of the visits table. -/
structure Visit where
  id : String
  premise_id : String
  form_id : String
  qrcode_id : String
  visitor_id : Option String
  form_data : List (String × String)
  status : String
  check_in_time : Nat
  check_out_time : Option Nat
  denial_reason : Option String
  updated_at : Nat
  deriving DecidableEq

/-- The persistent store: the five tables the modelled handlers read and
write. -/
structure Store where
  premises : List Premise
  forms : List Form
  qrcodes : List QRCode
  profiles : List Profile
  visits : List Visit
  deriving DecidableEq

/-- The distinct error responses of the submit route, in source order. -/
inductive SubmitError where
  | missingInput
  | qrNotFound
  | qrInactive
  | formNotFound
  | formInactive
  | configMismatch
  | internalError
  deriving DecidableEq

/-- HTTP status the submit route attaches to each error response. -/
def SubmitError.httpStatus : SubmitError → Nat
  | .missingInput => 400
  | .qrNotFound => 404
  | .qrInactive => 400
  | .formNotFound => 404
  | .formInactive => 400
  | .configMismatch => 500
  | .internalError => 500

/-- Whether a submit error is one of the two QR-specific rejections
(unknown/expired identifier, or identifier resolving to an inactive code). -/
def SubmitError.isQRError : SubmitError → Bool
  | .qrNotFound => true
  | .qrInactive => true
  | _ => false

/-- Result of the submit route: 201 with the new visit id, or an error. -/
inductive SubmitResult where
  | ok (visitId : String)
  | err (e : SubmitError)
  deriving DecidableEq

/-- The ordered intake checks of the submit route, before any insert:
missing identifier, QR lookup, QR active flag, form lookup, form active
flag, premise-id consistency between form and QR code. -/
def submitChecks (s : Store) (qrIdentifier : String) :
    Except SubmitError (QRCode × Form) :=
  if qrIdentifier.isEmpty then .error .missingInput
  else
    match maybeSingle s.qrcodes (fun q => q.qr_identifier == qrIdentifier) with
    | none => .error .qrNotFound
    | some qr =>
      if !qr.is_active then .error .qrInactive
      else
        match maybeSingle s.forms (fun f => f.id == qr.form_id) with
        | none => .error .formNotFound
        | some form =>
          if !form.is_active then .error .formInactive
          else if form.premise_id != qr.premise_id then .error .configMismatch
          else .ok (qr, form)

/-- The visit row inserted by the submit route: original form_data stored
verbatim, status checked_in, check-in time now, no check-out time. -/
def mkVisit (qr : QRCode) (form : Form) (formData : List (String × String))
    (newVisitId : String) (now : Nat) : Visit :=
  { id := newVisitId, premise_id := qr.premise_id, form_id := form.id,
    qrcode_id := qr.id, visitor_id := none, form_data := formData,
    status := "checked_in", check_in_time := now, check_out_time := none,
    denial_reason := none, updated_at := now }

/-- The visitor identity fields the submit route extracts from the
normalized submission: email, phone (phone_number or-else phone), full
name (full_name or-else name), id number. -/
def visitorFields (formData : List (String × String)) :
    Option String × Option String × Option String × Option String :=
  let nfd := normalizeObj formData
  (objGet nfd "email",
   jsOr (objGet nfd "phone_number") (objGet nfd "phone"),
   jsOr (objGet nfd "full_name") (objGet nfd "name"),
   objGet nfd "id_number")

/-- The find-or-create visitor sequence of the submit route: lookup by
email first, then by phone, then the provisioning branch. The provisioning
insert references the unbound identifier user (its id field), so reaching
it raises a ReferenceError; that exception is modelled as the error case,
which the outer catch of the route turns into the generic 500 response. -/
def visitorLookup (profiles : List Profile)
    (email phone fullName idNumber : Option String) :
    Except Unit (Option String) :=
  match (if truthy email then maybeSingle profiles (fun p => p.email == email) else none) with
  | some p => .ok (some p.id)
  | none =>
    match (if truthy phone then maybeSingle profiles (fun p => p.phone_number == phone) else none) with
    | some p => .ok (some p.id)
    | none =>
      if truthy fullName || truthy email || truthy idNumber then .error ()
      else .ok none

/-- The secondary update of the submit route linking the resolved visitor
onto the freshly created visit, filtered by visit id. -/
def linkFn (newVisitId profileId : String) (now : Nat) (v : Visit) : Visit :=
  if v.id == newVisitId then { v with visitor_id := some profileId, updated_at := now } else v

/-- The POST submit route (app/api/visits/submit/route.ts), step by step:
run the intake checks; insert the visit row (original form_data, status
checked_in); resolve the visitor identity; on a resolved identity perform
the best-effort link update (a failure of which would be logged and
swallowed); on the provisioning crash the outer catch returns the generic
internal error, the visit row remaining inserted. -/
def submit (s : Store) (qrIdentifier : String) (formData : List (String × String))
    (newVisitId : String) (now : Nat) : Store × SubmitResult :=
  match submitChecks s qrIdentifier with
  | .error e => (s, .err e)
  | .ok (qr, form) =>
    let s1 : Store := { s with visits := s.visits ++ [mkVisit qr form formData newVisitId now] }
    match visitorLookup s.profiles (visitorFields formData).1
        (visitorFields formData).2.1 (visitorFields formData).2.2.1
        (visitorFields formData).2.2.2 with
    | .error _ => (s1, .err .internalError)
    | .ok none => (s1, .ok newVisitId)
    | .ok (some pid) =>
      ({ s1 with visits := s1.visits.map (linkFn newVisitId pid now) }, .ok newVisitId)

/-- Result of the dashboard handleApprove handler. -/
inductive ApproveResult where
  | ok
  | errMissing
  deriving DecidableEq

/-- The row update applied by an approval. -/
def approveFn (now : Nat) (v : Visit) : Visit :=
  { v with status := "approved", updated_at := now }

/-- The dashboard handleApprove (app/dashboard/page.tsx): given the signed-in
session and its premise id, update every visit row matching the visit id and
that premise id to approved. The update carries no condition on the current
status, and a supabase update matching zero rows is not an error, so the
handler reports success in every case. -/
def handleApprove (s : Store) (visitId : String) (sessionPremise : Option String)
    (now : Nat) : Store × ApproveResult :=
  match sessionPremise with
  | none => (s, .errMissing)
  | some premiseId =>
    ({ s with visits := s.visits.map (fun v =>
        if v.id == visitId && v.premise_id == premiseId then approveFn now v else v) },
     .ok)

/-- Result of the dashboard handleDeny handler. -/
inductive DenyResult where
  | ok
  | cancelled
  | invalidInput
  | errMissing
  deriving DecidableEq

/-- The row update applied by the dashboard deny. -/
def denyFn (reason : String) (now : Nat) (v : Visit) : Visit :=
  { v with status := "denied", denial_reason := some reason, updated_at := now }

/-- The dashboard handleDeny (app/dashboard/page.tsx): a cancelled prompt
(null reason) is a silent no-op; a reason that trims to the empty string is
rejected with the invalid-input message before any store access; otherwise
every visit row matching the visit id and the session premise id is set to
denied with the reason recorded, again with no condition on the current
status. -/
def handleDeny (s : Store) (visitId : String) (reason : Option String)
    (sessionPremise : Option String) (now : Nat) : Store × DenyResult :=
  match reason with
  | none => (s, .cancelled)
  | some r =>
    if (jsTrim r).isEmpty then (s, .invalidInput)
    else
      match sessionPremise with
      | none => (s, .errMissing)
      | some premiseId =>
        ({ s with visits := s.visits.map (fun v =>
            if v.id == visitId && v.premise_id == premiseId then denyFn r now v else v) },
         .ok)

/-- Result of the deny API route. -/
inductive RouteResult where
  | ok
  | unauthorized
  | notFound
  | forbidden
  deriving DecidableEq

/-- The row update applied by the deny API route (no reason recorded). -/
def denyRouteFn (now : Nat) (v : Visit) : Visit :=
  { v with status := "denied", updated_at := now }

/-- The POST deny route (api/visits/[visitId]/deny, src/unnamed/part_000):
authenticate, fetch the visit joined with its premise owner (missing visit
gives 404, missing premise join or foreign owner gives 403), then update the
status to denied filtered by visit id only: no denial reason is read or
recorded and no prior status is checked. -/
def denyRoute (s : Store) (visitId : String) (sessionUser : Option String)
    (now : Nat) : Store × RouteResult :=
  match sessionUser with
  | none => (s, .unauthorized)
  | some userId =>
    match maybeSingle s.visits (fun v => v.id == visitId) with
    | none => (s, .notFound)
    | some v =>
      match maybeSingle s.premises (fun p => p.id == v.premise_id) with
      | none => (s, .forbidden)
      | some p =>
        if p.owner_id != some userId then (s, .forbidden)
        else
          ({ s with visits := s.visits.map (fun w =>
              if w.id == visitId then denyRouteFn now w else w) },
           .ok)

/-- Result of the checkout API route. -/
inductive CheckoutResult where
  | ok
  | unauthorized
  | notFound
  | forbidden
  | alreadyCheckedOut
  | notApproved
  deriving DecidableEq

/-- The row update applied by a successful checkout. -/
def checkoutFn (now : Nat) (v : Visit) : Visit :=
  { v with status := "checked_out", check_out_time := some now, updated_at := now }

/-- The POST checkout route (app/api/visits/[visitId]/checkout/route.ts):
authenticate, fetch the visit joined with its premise owner (404 / 403 as in
the deny route), reject with the already-checked-out message when the status
is checked_out, reject with the not-approved message when it is anything
other than approved, and otherwise set status checked_out and the check-out
time, filtered by visit id. -/
def checkoutRoute (s : Store) (visitId : String) (sessionUser : Option String)
    (now : Nat) : Store × CheckoutResult :=
  match sessionUser with
  | none => (s, .unauthorized)
  | some userId =>
    match maybeSingle s.visits (fun v => v.id == visitId) with
    | none => (s, .notFound)
    | some v =>
      match maybeSingle s.premises (fun p => p.id == v.premise_id) with
      | none => (s, .forbidden)
      | some p =>
        if p.owner_id != some userId then (s, .forbidden)
        else if v.status == "checked_out" then (s, .alreadyCheckedOut)
        else if v.status != "approved" then (s, .notApproved)
        else
          ({ s with visits := s.visits.map (fun w =>
              if w.id == visitId then checkoutFn now w else w) },
           .ok)

/-- The exposed visit-lifecycle operations, each carrying its request
parameters and the wall-clock time of the request. -/
inductive Op where
  | submitOp (qrIdentifier : String) (formData : List (String × String))
      (newVisitId : String) (now : Nat)
  | approveOp (visitId : String) (sessionPremise : Option String) (now : Nat)
  | denyOp (visitId : String) (reason : Option String)
      (sessionPremise : Option String) (now : Nat)
  | denyRouteOp (visitId : String) (sessionUser : Option String) (now : Nat)
  | checkoutOp (visitId : String) (sessionUser : Option String) (now : Nat)

/-- Effect of one exposed operation on the store. -/
def applyOp (s : Store) : Op → Store
  | .submitOp q fd nid t => (submit s q fd nid t).1
  | .approveOp vid pr t => (handleApprove s vid pr t).1
  | .denyOp vid r pr t => (handleDeny s vid r pr t).1
  | .denyRouteOp vid u t => (denyRoute s vid u t).1
  | .checkoutOp vid u t => (checkoutRoute s vid u t).1

/-- Stores reachable through the exposed operations from a configuration
with no visit rows yet (premises, forms, qrcodes and profiles arbitrary). -/
inductive Reaches : Store → Prop where
  | init (s : Store) : s.visits = [] → Reaches s
  | step (s : Store) (op : Op) : Reaches s → Reaches (applyOp s op)

/-- Run a list of operations left to right. -/
def runOps (s : Store) (ops : List Op) : Store := ops.foldl applyOp s

/-- Membership of a status in the set the specification names. -/
def statusOk (st : String) : Bool :=
  st == "pending_approval" || st == "checked_in" || st == "approved" ||
    st == "denied" || st == "checked_out"

/-- The per-visit invariant exactly as the specification states it: status
in the named set, and a non-null check-out time forces status checked_out. -/
def claimedInv (v : Visit) : Bool :=
  statusOk v.status && (v.check_out_time.isNone || v.status == "checked_out")

/-- The per-visit invariant the code actually maintains: status in the
named set, and a non-null check-out time forces a status among approved,
denied, checked_out (approve and deny update rows unconditionally, also
after a checkout, so they can move a checked-out visit away from
checked_out without clearing its check-out time). -/
def visitInv (v : Visit) : Bool :=
  statusOk v.status &&
    (v.check_out_time.isNone || v.status == "approved" ||
      v.status == "denied" || v.status == "checked_out")

/-- A one-premise demonstration configuration: premise P1 owned by user U1,
active form F1, active QR code Q1 with identifier QR1, no profiles, no
visits. -/
def demoStore : Store :=
  { premises := [{ id := "P1", owner_id := some "U1" }],
    forms := [{ id := "F1", premise_id := "P1", is_active := true }],
    qrcodes := [{ id := "Q1", form_id := "F1", premise_id := "P1",
                  qr_identifier := "QR1", is_active := true }],
    profiles := [], visits := [] }

/-- Submit, approve, check out, then approve again: the sequence whose
final state carries a non-null check-out time with status approved. -/
def demoOps : List Op :=
  [ .submitOp "QR1" [] "V1" 1,
    .approveOp "V1" (some "P1") 2,
    .checkoutOp "V1" (some "U1") 3,
    .approveOp "V1" (some "P1") 4 ]

/-- A visit of premise P1 awaiting a decision. -/
def pendingVisit : Visit :=
  { id := "V1", premise_id := "P1", form_id := "F1", qrcode_id := "Q1",
    visitor_id := none, form_data := [], status := "pending_approval",
    check_in_time := 1, check_out_time := none, denial_reason := none,
    updated_at := 1 }

/-- The demonstration configuration holding one pending visit. -/
def pendingStore : Store := { demoStore with visits := [pendingVisit] }

/-- The demonstration configuration holding one approved visit. -/
def approvedStore : Store :=
  { demoStore with visits := [{ pendingVisit with status := "approved" }] }

/-- The demonstration configuration holding one checked-out visit. -/
def checkedOutStore : Store :=
  { demoStore with
    visits := [{ pendingVisit with status := "checked_out", check_out_time := some 3 }] }

/-- The demonstration configuration with its QR code deactivated. -/
def inactiveQRStore : Store :=
  { demoStore with qrcodes := [{ id := "Q1", form_id := "F1", premise_id := "P1",
                                 qr_identifier := "QR1", is_active := false }] }

/-- The demonstration configuration with its form deactivated. -/
def inactiveFormStore : Store :=
  { demoStore with forms := [{ id := "F1", premise_id := "P1", is_active := false }] }

/-- The demonstration configuration with the premise id of the form differing
from the premise id denormalized onto the QR code. -/
def mismatchStore : Store :=
  { demoStore with forms := [{ id := "F1", premise_id := "P2", is_active := true }] }

/-- An existing visitor identity whose email is on record. -/
def janeProfile : Profile :=
  { id := "PR1", full_name := some "Jane", phone_number := none,
    email := some "jane@x.com" }

/-- The demonstration configuration holding that one profile. -/
def janeStore : Store := { demoStore with profiles := [janeProfile] }

/-- A submission carrying only an email value. -/
def c7Fd : List (String × String) := [("Email", "jane@x.com")]

/-- A submission carrying only a full name. -/
def c8Fd : List (String × String) := [("Full Name", "Jane")]

/-- A submission carrying a full name and an email. -/
def c9Fd : List (String × String) := [("Full Name", "Jane"), ("Email", "jane@x.com")]

/-! Helper lemmas shared by the claim theorems. -/

/-- A map whose function fixes every member of the list is the identity. -/
theorem map_id_of_forall {α : Type} (l : List α) (f : α → α)
    (h : ∀ a ∈ l, f a = a) : l.map f = l := by
  induction l with
  | nil => rfl
  | cons x xs ih =>
    simp only [List.map_cons, List.cons.injEq]
    exact ⟨h x (List.mem_cons_self x xs),
           ih (fun a ha => h a (List.mem_cons_of_mem x ha))⟩

/-- Membership in a guarded-update map: an element either comes from a
member satisfying the guard with the update applied, or is an untouched
member on which the guard is false. -/
theorem map_guard_mem {α : Type} (l : List α) (c : α → Bool) (f : α → α) (v : α)
    (hv : v ∈ l.map (fun w => if c w then f w else w)) :
    (∃ w, w ∈ l ∧ c w = true ∧ v = f w) ∨ (v ∈ l ∧ c v = false) := by
  simp only [List.mem_map] at hv
  obtain ⟨w, hw, he⟩ := hv
  by_cases hc : c w = true
  · exact Or.inl ⟨w, hw, hc, by rw [← he, if_pos hc]⟩
  · have hcf : c w = false := by simpa using hc
    have hvw : v = w := by rw [← he, if_neg hc]
    subst hvw
    exact Or.inr ⟨hw, hcf⟩

/-- The approve handler with a live session always reports success. -/
theorem handleApprove_snd (s : Store) (vid pid : String) (t : Nat) :
    (handleApprove s vid (some pid) t).2 = ApproveResult.ok := rfl

/-- Every visit matching the approve filter carries status approved
afterwards. -/
theorem handleApprove_matching (s : Store) (vid pid : String) (t : Nat) :
    ∀ v ∈ (handleApprove s vid (some pid) t).1.visits,
      v.id = vid → v.premise_id = pid → v.status = "approved" := by
  intro v hv hid hpid
  have hv2 := map_guard_mem s.visits
    (fun w => w.id == vid && w.premise_id == pid) (approveFn t) v hv
  rcases hv2 with ⟨w, _, _, rfl⟩ | ⟨_, hcf⟩
  · rfl
  · simp [hid, hpid] at hcf

/-- An approve whose filter matches no visit row leaves the store
untouched. -/
theorem handleApprove_nomatch (s : Store) (vid pid : String) (t : Nat)
    (h : ∀ v ∈ s.visits, ¬(v.id = vid ∧ v.premise_id = pid)) :
    (handleApprove s vid (some pid) t).1 = s := by
  show ({ s with visits := _ } : Store) = s
  have hm : s.visits.map (fun v =>
      if v.id == vid && v.premise_id == pid then approveFn t v else v) = s.visits := by
    apply map_id_of_forall
    intro v hvmem
    have hc : (v.id == vid && v.premise_id == pid) = false := by
      rcases hb : (v.id == vid && v.premise_id == pid) with _ | _
      · rfl
      · simp only [Bool.and_eq_true, beq_iff_eq] at hb
        exact absurd hb (h v hvmem)
    rw [if_neg (by simp [hc])]
  rw [hm]

/-- Every visit matching the dashboard deny filter carries status denied
and the recorded reason afterwards. -/
theorem handleDeny_matching (s : Store) (vid pid r : String) (t : Nat)
    (hr : (jsTrim r).isEmpty = false) :
    ∀ v ∈ (handleDeny s vid (some r) (some pid) t).1.visits,
      v.id = vid → v.premise_id = pid →
      v.status = "denied" ∧ v.denial_reason = some r := by
  intro v hv hid hpid
  simp only [handleDeny, hr, Bool.false_eq_true, if_false] at hv
  have hv2 := map_guard_mem s.visits
    (fun w => w.id == vid && w.premise_id == pid) (denyFn r t) v hv
  rcases hv2 with ⟨w, _, _, rfl⟩ | ⟨_, hcf⟩
  · exact ⟨rfl, rfl⟩
  · simp [hid, hpid] at hcf

/-- C3 amended: the dashboard deny handler rejects a denial reason that is
empty or whitespace-only as invalid input before any store access, leaving
the store (and so a pending visit) unchanged, and on a non-blank reason
succeeds, recording that reason on each matching visit and setting its
status to denied; the deny API route, by contrast, accepts a deny request
carrying no reason at all: for an owned existing visit it reports success,
sets status denied unconditionally, and its row update leaves
denial_reason untouched — no reason is ever recorded on that path. -/
theorem C3_theorem (s : Store) (visitId premiseId userId r : String) (t : Nat) :
    ((jsTrim r).isEmpty = true →
      (handleDeny s visitId (some r) (some premiseId) t).2 = DenyResult.invalidInput ∧
      (handleDeny s visitId (some r) (some premiseId) t).1 = s) ∧
    ((jsTrim r).isEmpty = false →
      (handleDeny s visitId (some r) (some premiseId) t).2 = DenyResult.ok ∧
      ∀ v ∈ (handleDeny s visitId (some r) (some premiseId) t).1.visits,
        v.id = visitId → v.premise_id = premiseId →
        v.status = "denied" ∧ v.denial_reason = some r) ∧
    (∀ v p, maybeSingle s.visits (fun w => w.id == visitId) = some v →
      maybeSingle s.premises (fun q => q.id == v.premise_id) = some p →
      p.owner_id = some userId →
      (denyRoute s visitId (some userId) t).2 = RouteResult.ok ∧
      ∀ w ∈ (denyRoute s visitId (some userId) t).1.visits,
        w.id = visitId → w.status = "denied") ∧
    (∀ w : Visit, (denyRouteFn t w).denial_reason = w.denial_reason) := by
  refine ⟨?_, ?_, ?_, fun w => rfl⟩
  · intro h
    exact ⟨by simp [handleDeny, h], by simp [handleDeny, h]⟩
  · intro h
    exact ⟨by simp [handleDeny, h], handleDeny_matching s visitId premiseId r t h⟩
  · intro v p hv hp ho
    have hroute : denyRoute s visitId (some userId) t =
        ({ s with visits := s.visits.map (fun w =>
            if w.id == visitId then denyRouteFn t w else w) }, RouteResult.ok) := by
      simp only [denyRoute, hv, hp, ho, bne_self_eq_false, Bool.false_eq_true,
        if_false]
    refine ⟨by rw [hroute], ?_⟩
    intro w hw hid
    rw [hroute] at hw
    have hw2 := map_guard_mem s.visits (fun u => u.id == visitId) (denyRouteFn t) w hw
    rcases hw2 with ⟨u, _, _, rfl⟩ | ⟨_, hcf⟩
    · rfl
    · simp [hid] at hcf

/-- C3 witness: in the demonstration store with one pending visit, a
whitespace-only reason is rejected by the dashboard handler with the store
untouched, the deny with a concrete reason marks the visit denied with the
reason recorded, and the deny API route succeeds on the owner request and
marks the visit denied without any reason being involved. -/
theorem C3_witness :
    (handleDeny pendingStore "V1" (some "   ") (some "P1") 5).2 = DenyResult.invalidInput ∧
    (handleDeny pendingStore "V1" (some "   ") (some "P1") 5).1 = pendingStore ∧
    (handleDeny pendingStore "V1" (some "no entry") (some "P1") 6).2 = DenyResult.ok ∧
    ((handleDeny pendingStore "V1" (some "no entry") (some "P1") 6).1.visits.headD pendingVisit).status = "denied" ∧
    ((handleDeny pendingStore "V1" (some "no entry") (some "P1") 6).1.visits.headD pendingVisit).denial_reason = some "no entry" ∧
    (denyRoute pendingStore "V1" (some "U1") 6).2 = RouteResult.ok ∧
    ((denyRoute pendingStore "V1" (some "U1") 6).1.visits.headD pendingVisit).status = "denied" := by
  obtain ⟨hempty, _, _, _⟩ := C3_theorem pendingStore "V1" "P1" "U1" "   " 5
  obtain ⟨h1, h2⟩ := hempty (by decide)
  obtain ⟨_, hgood, hro, _⟩ := C3_theorem pendingStore "V1" "P1" "U1" "no entry" 6
  obtain ⟨h3, h4⟩ := hgood (by decide)
  have h5 := h4 ((handleDeny pendingStore "V1" (some "no entry") (some "P1") 6).1.visits.headD pendingVisit)
    (by decide) (by decide) (by decide)
  obtain ⟨h6, h7⟩ := hro pendingVisit { id := "P1", owner_id := some "U1" }
    (by decide) (by decide) rfl
  have h8 := h7 ((denyRoute pendingStore "V1" (some "U1") 6).1.visits.headD pendingVisit)
    (by decide) (by decide)
  exact ⟨h1, h2, h3, h5.1, h5.2, h6, h8⟩

/-- C3 counterexample: the deny API route is also a deny request against a
pending visit, yet it carries no denial reason at all and is not rejected:
the owner request succeeds, the visit does not remain pending_approval, and
the successful deny records no reason — denial_reason stays null. -/
theorem C3_counterexample :
    (denyRoute pendingStore "V1" (some "U1") 5).2 = RouteResult.ok ∧
    (denyRoute pendingStore "V1" (some "U1") 5).1.visits.map
      (fun v => (v.status, v.denial_reason)) = [("denied", none)] := by
  refine ⟨by decide, by decide⟩

/-- C2 amended: the approve handler carries no guard on the current status
and no compare-and-set: it reports success for any visit id regardless of
the visit state, so a second approve on the same visit also reports
success (there is no InvalidStateTransition outcome anywhere in the code)
and every matching visit ends with status approved. -/
theorem C2_amended (s : Store) (visitId premiseId : String) (t1 t2 : Nat) :
    (handleApprove s visitId (some premiseId) t1).2 = ApproveResult.ok ∧
    (handleApprove (handleApprove s visitId (some premiseId) t1).1 visitId (some premiseId) t2).2 = ApproveResult.ok ∧
    ∀ v ∈ (handleApprove (handleApprove s visitId (some premiseId) t1).1 visitId (some premiseId) t2).1.visits,
      v.id = visitId → v.premise_id = premiseId → v.status = "approved" :=
  ⟨rfl, rfl, handleApprove_matching _ visitId premiseId t2⟩

/-- C2 witness: the amended theorem applied to the one-pending-visit store;
the doubly approved visit ends approved. -/
theorem C2_witness :
    ((handleApprove (handleApprove pendingStore "V1" (some "P1") 2).1 "V1" (some "P1") 3).1.visits.headD pendingVisit).status = "approved" :=
  (C2_amended pendingStore "V1" "P1" 2 3).2.2
    ((handleApprove (handleApprove pendingStore "V1" (some "P1") 2).1 "V1" (some "P1") 3).1.visits.headD pendingVisit)
    (by decide) (by decide) (by decide)

/-- C2 counterexample: approving the same pending visit twice does not make
the second call fail: both calls report success and the visit is simply
approved, contradicting the claimed InvalidStateTransition failure of the
second call. -/
theorem C2_counterexample :
    (handleApprove pendingStore "V1" (some "P1") 2).2 = ApproveResult.ok ∧
    (handleApprove (handleApprove pendingStore "V1" (some "P1") 2).1 "V1" (some "P1") 3).2 = ApproveResult.ok ∧
    (handleApprove (handleApprove pendingStore "V1" (some "P1") 2).1 "V1" (some "P1") 3).1.visits.map Visit.status = ["approved"] := by
  exact ⟨rfl, rfl, by decide⟩

/-- Two maps agreeing on every member of a list are equal on it. -/
theorem map_congr_mem {α β : Type} (l : List α) (f g : α → β)
    (h : ∀ a ∈ l, f a = g a) : l.map f = l.map g := by
  induction l with
  | nil => rfl
  | cons x xs ih =>
    simp only [List.map_cons, List.cons.injEq]
    exact ⟨h x (List.mem_cons_self x xs),
           ih (fun a ha => h a (List.mem_cons_of_mem x ha))⟩

/-- The approve row update does not move a visit between filter groups. -/
theorem approveFn_id (t : Nat) (v : Visit) : (approveFn t v).id = v.id := rfl

/-- The approve row update keeps the premise id of the visit. -/
theorem approveFn_premise (t : Nat) (v : Visit) :
    (approveFn t v).premise_id = v.premise_id := rfl

/-- A second approve row update absorbs the first. -/
theorem approveFn_approveFn (t1 t2 : Nat) (v : Visit) :
    approveFn t2 (approveFn t1 v) = approveFn t2 v := rfl

/-- Applying the guarded approve update twice to one row equals applying
the later update once. -/
theorem approve_step_absorb (vid pid : String) (t1 t2 : Nat) (v : Visit) :
    (if ((if (v.id == vid && v.premise_id == pid) = true then approveFn t1 v else v).id == vid &&
         (if (v.id == vid && v.premise_id == pid) = true then approveFn t1 v else v).premise_id == pid) = true
     then approveFn t2 (if (v.id == vid && v.premise_id == pid) = true then approveFn t1 v else v)
     else (if (v.id == vid && v.premise_id == pid) = true then approveFn t1 v else v))
    = (if (v.id == vid && v.premise_id == pid) = true then approveFn t2 v else v) := by
  by_cases hc : (v.id == vid && v.premise_id == pid) = true
  · rw [if_pos hc, approveFn_id, approveFn_premise, if_pos hc, if_pos hc,
       approveFn_approveFn]
  · rw [if_neg hc, if_neg hc]

/-- Composing two approve writes is the same store write as the second
alone: the later unconditioned update silently overwrites the earlier. -/
theorem handleApprove_twice_visits (s : Store) (vid pid : String) (t1 t2 : Nat) :
    (handleApprove (handleApprove s vid (some pid) t1).1 vid (some pid) t2).1.visits
      = s.visits.map (fun v =>
          if v.id == vid && v.premise_id == pid then approveFn t2 v else v) := by
  show (s.visits.map _).map _ = s.visits.map _
  rw [List.map_map]
  exact map_congr_mem _ _ _ (fun v _ => approve_step_absorb vid pid t1 t2 v)

/-- C5 amended: the store-level update of approve is filtered only by visit
id and premise id and carries no condition on the expected prior status, so
when two approve requests race on the same pending visit every interleaving
(each request being a single unconditioned write) has both requests report
success — no InvalidStateTransition is ever produced — and the effect on
the store equals that of the later write alone: the earlier write is lost. -/
theorem C5_amended (s : Store) (visitId premiseId : String) (t1 t2 : Nat) :
    (handleApprove s visitId (some premiseId) t1).2 = ApproveResult.ok ∧
    (handleApprove (handleApprove s visitId (some premiseId) t1).1 visitId (some premiseId) t2).2 = ApproveResult.ok ∧
    (handleApprove (handleApprove s visitId (some premiseId) t1).1 visitId (some premiseId) t2).1.visits
      = s.visits.map (fun v =>
          if v.id == visitId && v.premise_id == premiseId then approveFn t2 v else v) :=
  ⟨rfl, rfl, handleApprove_twice_visits s visitId premiseId t1 t2⟩

/-- C5 counterexample: on the concrete store with one pending visit, both
of the two racing approve writes report success (the claim promises exactly
one success and one InvalidStateTransition failure), and the final row
carries only the later write: the earlier update is lost. -/
theorem C5_counterexample :
    (handleApprove pendingStore "V1" (some "P1") 10).2 = ApproveResult.ok ∧
    (handleApprove (handleApprove pendingStore "V1" (some "P1") 10).1 "V1" (some "P1") 11).2 = ApproveResult.ok ∧
    (handleApprove (handleApprove pendingStore "V1" (some "P1") 10).1 "V1" (some "P1") 11).1.visits.map Visit.updated_at = [11] :=
  ⟨rfl, rfl, by decide⟩

/-- C10 amended: the approve handler returns success unconditionally and
never surfaces a NotFound, Forbidden or InvalidStateTransition outcome;
when its filter (visit id and acting premise id, with no status condition)
matches no row — unknown id or visit of a foreign premise — the store is
unchanged, a zero-row update not being an error; but when an owned visit
does exist its row is rewritten to approved regardless of its current
state, also when it is not pending. -/
theorem C10_theorem (s : Store) (visitId premiseId : String) (t : Nat) :
    (handleApprove s visitId (some premiseId) t).2 = ApproveResult.ok ∧
    ((∀ v ∈ s.visits, ¬(v.id = visitId ∧ v.premise_id = premiseId)) →
      (handleApprove s visitId (some premiseId) t).1 = s) ∧
    (∀ v ∈ (handleApprove s visitId (some premiseId) t).1.visits,
      v.id = visitId → v.premise_id = premiseId → v.status = "approved") :=
  ⟨rfl, handleApprove_nomatch s visitId premiseId t,
   handleApprove_matching s visitId premiseId t⟩

/-- C10 witness: approving a nonexistent visit id in the visit-free
demonstration store reports success and changes nothing, while approving
the existing checked-out visit reports success and rewrites its row to
approved. -/
theorem C10_witness :
    (handleApprove demoStore "VX" (some "P1") 9).2 = ApproveResult.ok ∧
    (handleApprove demoStore "VX" (some "P1") 9).1 = demoStore ∧
    ((handleApprove checkedOutStore "V1" (some "P1") 9).1.visits.headD pendingVisit).status = "approved" :=
  ⟨(C10_theorem demoStore "VX" "P1" 9).1,
   (C10_theorem demoStore "VX" "P1" 9).2.1 (by decide),
   (C10_theorem checkedOutStore "V1" "P1" 9).2.2
     ((handleApprove checkedOutStore "V1" (some "P1") 9).1.visits.headD pendingVisit)
     (by decide) (by decide) (by decide)⟩

/-- C10 counterexample: for an existing visit owned by the acting premise
that is not in a pending state (here checked_out), the approve update
matches the row and changes it: the operation reports success but the store
differs and the row now reads approved, contradicting the claim that no
visit row is changed in the not-pending case. -/
theorem C10_counterexample :
    (handleApprove checkedOutStore "V1" (some "P1") 9).2 = ApproveResult.ok ∧
    (handleApprove checkedOutStore "V1" (some "P1") 9).1 ≠ checkedOutStore ∧
    (handleApprove checkedOutStore "V1" (some "P1") 9).1.visits.map Visit.status
      = ["approved"] := by
  refine ⟨rfl, by decide, by decide⟩

/-- C4: for an authenticated owner of the visit premise, checkout rejects
with the already-checked-out error when the status is checked_out, rejects
with the not-approved error when the status is anything else other than
approved (both rejections leaving the store untouched), and on an approved
visit succeeds, setting status checked_out and the check-out time to the
request time. -/
theorem C4_theorem (s : Store) (visitId userId : String) (t : Nat)
    (v : Visit) (p : Premise)
    (hv : maybeSingle s.visits (fun w => w.id == visitId) = some v)
    (hp : maybeSingle s.premises (fun q => q.id == v.premise_id) = some p)
    (ho : p.owner_id = some userId) :
    (v.status = "checked_out" →
      checkoutRoute s visitId (some userId) t = (s, CheckoutResult.alreadyCheckedOut)) ∧
    (v.status ≠ "checked_out" → v.status ≠ "approved" →
      checkoutRoute s visitId (some userId) t = (s, CheckoutResult.notApproved)) ∧
    (v.status = "approved" →
      (checkoutRoute s visitId (some userId) t).2 = CheckoutResult.ok ∧
      ∀ w ∈ (checkoutRoute s visitId (some userId) t).1.visits,
        w.id = visitId → w.status = "checked_out" ∧ w.check_out_time = some t) := by
  have hroute : checkoutRoute s visitId (some userId) t =
      (if v.status == "checked_out" then (s, CheckoutResult.alreadyCheckedOut)
       else if v.status != "approved" then (s, CheckoutResult.notApproved)
       else ({ s with visits := s.visits.map (fun w =>
                if w.id == visitId then checkoutFn t w else w) },
             CheckoutResult.ok)) := by
    simp only [checkoutRoute, hv, hp, ho, bne_self_eq_false, Bool.false_eq_true,
      if_false]
  refine ⟨?_, ?_, ?_⟩
  · intro hstat
    rw [hroute, if_pos (by simp [hstat])]
  · intro h1 h2
    rw [hroute, if_neg (by simpa using h1), if_pos (bne_iff_ne.mpr h2)]
  · intro hstat
    rw [hroute, if_neg (by simp [hstat]), if_neg (by simp [hstat])]
    refine ⟨rfl, ?_⟩
    intro w hw hid
    have hw2 := map_guard_mem s.visits (fun u => u.id == visitId) (checkoutFn t) w hw
    rcases hw2 with ⟨u, _, _, rfl⟩ | ⟨_, hcf⟩
    · exact ⟨rfl, rfl⟩
    · simp [hid] at hcf

/-- C4 witness: on the three demonstration stores holding a checked-out, a
pending, and an approved visit respectively, checkout by the premise owner
yields the already-checked-out rejection, the not-approved rejection, and a
success that writes status checked_out with check-out time 7. -/
theorem C4_witness :
    checkoutRoute checkedOutStore "V1" (some "U1") 7 = (checkedOutStore, CheckoutResult.alreadyCheckedOut) ∧
    checkoutRoute pendingStore "V1" (some "U1") 7 = (pendingStore, CheckoutResult.notApproved) ∧
    (checkoutRoute approvedStore "V1" (some "U1") 7).2 = CheckoutResult.ok ∧
    ((checkoutRoute approvedStore "V1" (some "U1") 7).1.visits.headD pendingVisit).status = "checked_out" ∧
    ((checkoutRoute approvedStore "V1" (some "U1") 7).1.visits.headD pendingVisit).check_out_time = some 7 := by
  have h1 := (C4_theorem checkedOutStore "V1" "U1" 7
    { pendingVisit with status := "checked_out", check_out_time := some 3 }
    { id := "P1", owner_id := some "U1" } (by decide) (by decide) rfl).1 rfl
  have h2 := ((C4_theorem pendingStore "V1" "U1" 7 pendingVisit
    { id := "P1", owner_id := some "U1" } (by decide) (by decide) rfl).2.1
    (by decide) (by decide))
  have h3 := (C4_theorem approvedStore "V1" "U1" 7
    { pendingVisit with status := "approved" }
    { id := "P1", owner_id := some "U1" } (by decide) (by decide) rfl).2.2 rfl
  have h4 := h3.2 ((checkoutRoute approvedStore "V1" (some "U1") 7).1.visits.headD pendingVisit)
    (by decide) (by decide)
  exact ⟨h1, h2, h3.1, h4.1, h4.2⟩

/-- A failed intake check makes the submit route return its error with the
store untouched: no visit row is created. -/
theorem submit_of_checks_error (s : Store) (qrId : String)
    (fd : List (String × String)) (nid : String) (t : Nat) (e : SubmitError)
    (h : submitChecks s qrId = .error e) :
    submit s qrId fd nid t = (s, SubmitResult.err e) := by
  simp only [submit, h]

/-- C6: the intake checks of the submit route run in source order and abort
with distinct errors: an unknown QR identifier and an inactive QR code are
rejected with the two QR-specific errors (the active-flag check on the form
not yet reached, which exhibits the ordering), an inactive form is rejected
with the distinct inactive-form error, and a premise-id mismatch between
form and QR code aborts with the configuration error carried as HTTP 500 —
an internal fault, unlike the 400 of the user-facing inactive-form
rejection; in every one of these cases the store is returned unchanged, so
a visit is created only when all checks pass. -/
theorem C6_theorem (s : Store) (qrId : String) (fd : List (String × String))
    (nid : String) (t : Nat) (hne : qrId.isEmpty = false) :
    (maybeSingle s.qrcodes (fun q => q.qr_identifier == qrId) = none →
      submit s qrId fd nid t = (s, SubmitResult.err SubmitError.qrNotFound)) ∧
    (∀ qr, maybeSingle s.qrcodes (fun q => q.qr_identifier == qrId) = some qr →
      qr.is_active = false →
      submit s qrId fd nid t = (s, SubmitResult.err SubmitError.qrInactive)) ∧
    (∀ qr form, maybeSingle s.qrcodes (fun q => q.qr_identifier == qrId) = some qr →
      qr.is_active = true →
      maybeSingle s.forms (fun f => f.id == qr.form_id) = some form →
      form.is_active = false →
      submit s qrId fd nid t = (s, SubmitResult.err SubmitError.formInactive)) ∧
    (∀ qr form, maybeSingle s.qrcodes (fun q => q.qr_identifier == qrId) = some qr →
      qr.is_active = true →
      maybeSingle s.forms (fun f => f.id == qr.form_id) = some form →
      form.is_active = true → form.premise_id ≠ qr.premise_id →
      submit s qrId fd nid t = (s, SubmitResult.err SubmitError.configMismatch)) ∧
    (SubmitError.isQRError SubmitError.qrNotFound = true ∧
     SubmitError.isQRError SubmitError.qrInactive = true ∧
     SubmitError.isQRError SubmitError.formInactive = false ∧
     SubmitError.httpStatus SubmitError.formInactive = 400 ∧
     SubmitError.httpStatus SubmitError.configMismatch = 500) := by
  refine ⟨?_, ?_, ?_, ?_, rfl, rfl, rfl, rfl, rfl⟩
  · intro hq
    apply submit_of_checks_error
    simp only [submitChecks, hne, Bool.false_eq_true, if_false, hq]
  · intro qr hq hact
    apply submit_of_checks_error
    simp only [submitChecks, hne, Bool.false_eq_true, if_false, hq, hact,
      Bool.not_false, if_true]
  · intro qr form hq hact hf hfact
    apply submit_of_checks_error
    simp only [submitChecks, hne, Bool.false_eq_true, if_false, hq, hact, hf,
      hfact, Bool.not_true, Bool.not_false, if_true]
  · intro qr form hq hact hf hfact hmis
    apply submit_of_checks_error
    simp only [submitChecks, hne, Bool.false_eq_true, if_false, hq, hact, hf,
      hfact, Bool.not_true, bne_iff_ne, ne_eq, hmis, not_false_eq_true,
      if_true]

/-- C6 witness: on the demonstration configurations, an unknown identifier,
an inactive QR code, an inactive form and a premise mismatch each produce
their distinct error with the store unchanged. -/
theorem C6_witness :
    submit demoStore "QRZ" [] "V1" 1 = (demoStore, SubmitResult.err SubmitError.qrNotFound) ∧
    submit inactiveQRStore "QR1" [] "V1" 1 = (inactiveQRStore, SubmitResult.err SubmitError.qrInactive) ∧
    submit inactiveFormStore "QR1" [] "V1" 1 = (inactiveFormStore, SubmitResult.err SubmitError.formInactive) ∧
    submit mismatchStore "QR1" [] "V1" 1 = (mismatchStore, SubmitResult.err SubmitError.configMismatch) := by
  refine ⟨?_, ?_, ?_, ?_⟩
  · exact (C6_theorem demoStore "QRZ" [] "V1" 1 (by decide)).1 (by decide)
  · exact (C6_theorem inactiveQRStore "QR1" [] "V1" 1 (by decide)).2.1
      { id := "Q1", form_id := "F1", premise_id := "P1", qr_identifier := "QR1", is_active := false }
      (by decide) rfl
  · exact (C6_theorem inactiveFormStore "QR1" [] "V1" 1 (by decide)).2.2.1
      { id := "Q1", form_id := "F1", premise_id := "P1", qr_identifier := "QR1", is_active := true }
      { id := "F1", premise_id := "P1", is_active := false }
      (by decide) rfl (by decide) rfl
  · exact (C6_theorem mismatchStore "QR1" [] "V1" 1 (by decide)).2.2.2.1
      { id := "Q1", form_id := "F1", premise_id := "P1", qr_identifier := "QR1", is_active := true }
      { id := "F1", premise_id := "P2", is_active := true }
      (by decide) rfl (by decide) rfl (by decide)

/-- The freshly inserted visit row satisfies the code-level invariant. -/
theorem visitInv_mkVisit (qr : QRCode) (form : Form)
    (fd : List (String × String)) (nid : String) (t : Nat) :
    visitInv (mkVisit qr form fd nid t) = true := by
  simp [visitInv, mkVisit, statusOk]

/-- An approved row satisfies the code-level invariant. -/
theorem visitInv_approveFn (t : Nat) (v : Visit) :
    visitInv (approveFn t v) = true := by
  simp [visitInv, approveFn, statusOk]

/-- A row denied by the dashboard satisfies the code-level invariant. -/
theorem visitInv_denyFn (r : String) (t : Nat) (v : Visit) :
    visitInv (denyFn r t v) = true := by
  simp [visitInv, denyFn, statusOk]

/-- A row denied by the API route satisfies the code-level invariant. -/
theorem visitInv_denyRouteFn (t : Nat) (v : Visit) :
    visitInv (denyRouteFn t v) = true := by
  simp [visitInv, denyRouteFn, statusOk]

/-- A checked-out row satisfies the code-level invariant. -/
theorem visitInv_checkoutFn (t : Nat) (v : Visit) :
    visitInv (checkoutFn t v) = true := by
  simp [visitInv, checkoutFn, statusOk]

/-- The visitor-link update does not affect the invariant. -/
theorem visitInv_linkFn (nid pid : String) (t : Nat) (v : Visit) :
    visitInv (linkFn nid pid t v) = visitInv v := by
  simp only [linkFn]
  split <;> rfl

/-- The submit route leaves the visits table unchanged, appends exactly the
new row, or appends it and then applies the visitor-link update. -/
theorem submit_visits_cases (s : Store) (q : String)
    (fd : List (String × String)) (nid : String) (t : Nat) :
    (submit s q fd nid t).1.visits = s.visits ∨
    (∃ qr form, (submit s q fd nid t).1.visits
        = s.visits ++ [mkVisit qr form fd nid t]) ∨
    (∃ qr form pid, (submit s q fd nid t).1.visits
        = (s.visits ++ [mkVisit qr form fd nid t]).map (linkFn nid pid t)) := by
  unfold submit
  cases submitChecks s q with
  | error e => exact Or.inl rfl
  | ok qf =>
    obtain ⟨qr, form⟩ := qf
    cases visitorLookup s.profiles (visitorFields fd).1 (visitorFields fd).2.1
        (visitorFields fd).2.2.1 (visitorFields fd).2.2.2 with
    | error u => exact Or.inr (Or.inl ⟨qr, form, rfl⟩)
    | ok o =>
      cases o with
      | none => exact Or.inr (Or.inl ⟨qr, form, rfl⟩)
      | some pid => exact Or.inr (Or.inr ⟨qr, form, pid, rfl⟩)

/-- The dashboard deny leaves the visits table unchanged or applies the
guarded deny update. -/
theorem handleDeny_visits_cases (s : Store) (vid : String) (r : Option String)
    (pr : Option String) (t : Nat) :
    (handleDeny s vid r pr t).1.visits = s.visits ∨
    (∃ rr pid, (handleDeny s vid r pr t).1.visits
        = s.visits.map (fun v =>
            if v.id == vid && v.premise_id == pid then denyFn rr t v else v)) := by
  unfold handleDeny
  split
  · exact Or.inl rfl
  · split
    · exact Or.inl rfl
    · split
      · exact Or.inl rfl
      · exact Or.inr ⟨_, _, rfl⟩

/-- The deny API route leaves the visits table unchanged or applies the
guarded route deny update. -/
theorem denyRoute_visits_cases (s : Store) (vid : String) (u : Option String)
    (t : Nat) :
    (denyRoute s vid u t).1.visits = s.visits ∨
    (denyRoute s vid u t).1.visits = s.visits.map (fun w =>
        if w.id == vid then denyRouteFn t w else w) := by
  unfold denyRoute
  split
  · exact Or.inl rfl
  · split
    · exact Or.inl rfl
    · split
      · exact Or.inl rfl
      · split
        · exact Or.inl rfl
        · exact Or.inr rfl

/-- The checkout route leaves the visits table unchanged or applies the
guarded checkout update. -/
theorem checkoutRoute_visits_cases (s : Store) (vid : String)
    (u : Option String) (t : Nat) :
    (checkoutRoute s vid u t).1.visits = s.visits ∨
    (checkoutRoute s vid u t).1.visits = s.visits.map (fun w =>
        if w.id == vid then checkoutFn t w else w) := by
  unfold checkoutRoute
  split
  · exact Or.inl rfl
  · split
    · exact Or.inl rfl
    · split
      · exact Or.inl rfl
      · split
        · exact Or.inl rfl
        · split
          · exact Or.inl rfl
          · split
            · exact Or.inl rfl
            · exact Or.inr rfl

/-- Every exposed operation preserves the code-level per-visit invariant. -/
theorem visitInv_applyOp (s : Store) (op : Op)
    (h : ∀ v ∈ s.visits, visitInv v = true) :
    ∀ v ∈ (applyOp s op).visits, visitInv v = true := by
  cases op with
  | submitOp q fd nid t =>
    show ∀ v ∈ (submit s q fd nid t).1.visits, visitInv v = true
    rcases submit_visits_cases s q fd nid t with
      hc | ⟨qr, form, hc⟩ | ⟨qr, form, pid, hc⟩ <;> rw [hc]
    · exact h
    · intro v hv
      rcases List.mem_append.mp hv with h1 | h2
      · exact h v h1
      · rw [List.mem_singleton.mp h2]
        exact visitInv_mkVisit qr form fd nid t
    · intro v hv
      obtain ⟨w, hw, rfl⟩ := List.mem_map.mp hv
      rw [visitInv_linkFn]
      rcases List.mem_append.mp hw with h1 | h2
      · exact h w h1
      · rw [List.mem_singleton.mp h2]
        exact visitInv_mkVisit qr form fd nid t
  | approveOp vid pr t =>
    show ∀ v ∈ (handleApprove s vid pr t).1.visits, visitInv v = true
    cases pr with
    | none => exact h
    | some pid =>
      intro v hv
      rcases map_guard_mem s.visits _ (approveFn t) v hv with ⟨w, _, _, rfl⟩ | ⟨hm, _⟩
      · exact visitInv_approveFn t w
      · exact h v hm
  | denyOp vid r pr t =>
    show ∀ v ∈ (handleDeny s vid r pr t).1.visits, visitInv v = true
    rcases handleDeny_visits_cases s vid r pr t with hc | ⟨rr, pid, hc⟩ <;> rw [hc]
    · exact h
    · intro v hv
      rcases map_guard_mem s.visits _ (denyFn rr t) v hv with ⟨w, _, _, rfl⟩ | ⟨hm, _⟩
      · exact visitInv_denyFn rr t w
      · exact h v hm
  | denyRouteOp vid u t =>
    show ∀ v ∈ (denyRoute s vid u t).1.visits, visitInv v = true
    rcases denyRoute_visits_cases s vid u t with hc | hc <;> rw [hc]
    · exact h
    · intro v hv
      rcases map_guard_mem s.visits _ (denyRouteFn t) v hv with ⟨w, _, _, rfl⟩ | ⟨hm, _⟩
      · exact visitInv_denyRouteFn t w
      · exact h v hm
  | checkoutOp vid u t =>
    show ∀ v ∈ (checkoutRoute s vid u t).1.visits, visitInv v = true
    rcases checkoutRoute_visits_cases s vid u t with hc | hc <;> rw [hc]
    · exact h
    · intro v hv
      rcases map_guard_mem s.visits _ (checkoutFn t) v hv with ⟨w, _, _, rfl⟩ | ⟨hm, _⟩
      · exact visitInv_checkoutFn t w
      · exact h v hm

/-- Running a list of operations preserves reachability. -/
theorem reaches_runOps (s : Store) (ops : List Op) (h : Reaches s) :
    Reaches (runOps s ops) := by
  induction ops generalizing s with
  | nil => exact h
  | cons op rest ih => exact ih (applyOp s op) (Reaches.step s op h)

/-- C1 amended: every store reachable through the exposed operations
satisfies, for each of its visits, membership of the status in the named
five-element set, together with the weaker check-out condition the code
actually maintains: a non-null check_out_time forces the status to be one
of approved, denied, checked_out (checked_out alone is not guaranteed,
because approve and deny update rows unconditionally, also after a
checkout). -/
theorem C1_amended (s : Store) (h : Reaches s) :
    ∀ v ∈ s.visits, visitInv v = true := by
  induction h with
  | init s0 hs =>
    intro v hv
    rw [hs] at hv
    cases hv
  | step s0 op _ ih => exact visitInv_applyOp s0 op ih

/-- C1 witness: the amended invariant holds of the concrete reachable store
produced by submitting, approving, checking out and re-approving. -/
theorem C1_witness :
    (runOps demoStore demoOps).visits.all visitInv = true :=
  List.all_eq_true.mpr
    (C1_amended (runOps demoStore demoOps)
      (reaches_runOps demoStore demoOps (Reaches.init demoStore rfl)))

/-- C1 counterexample: the store reached by submit, approve, checkout,
approve is reachable through the exposed operations, yet its visit carries
check_out_time 3 with status approved, violating the claimed implication
that a non-null check_out_time forces status checked_out. -/
theorem C1_counterexample :
    Reaches (runOps demoStore demoOps) ∧
    (runOps demoStore demoOps).visits.all claimedInv = false ∧
    (runOps demoStore demoOps).visits.map
      (fun v => (v.status, v.check_out_time)) = [("approved", some 3)] :=
  ⟨reaches_runOps demoStore demoOps (Reaches.init demoStore rfl),
   by decide, by decide⟩

/-- The submit route never writes the profiles table: lookups read it, and
the provisioning insert is never reached intact (its reference to the
unbound user identifier faults first), so no identity record is ever
created by this code. -/
theorem submit_profiles (s : Store) (q : String) (fd : List (String × String))
    (nid : String) (t : Nat) : (submit s q fd nid t).1.profiles = s.profiles := by
  unfold submit
  cases submitChecks s q with
  | error e => rfl
  | ok qf =>
    obtain ⟨qr, form⟩ := qf
    cases visitorLookup s.profiles (visitorFields fd).1 (visitorFields fd).2.1
        (visitorFields fd).2.2.1 (visitorFields fd).2.2.2 with
    | error u => rfl
    | ok o =>
      cases o with
      | none => rfl
      | some pid => rfl

/-- The visitor-link update keeps the visit id. -/
theorem linkFn_id (nid pid : String) (t : Nat) (v : Visit) :
    (linkFn nid pid t v).id = v.id := by
  simp only [linkFn]
  split <;> rfl

/-- The visitor-link update keeps the stored form data. -/
theorem linkFn_form_data (nid pid : String) (t : Nat) (v : Visit) :
    (linkFn nid pid t v).form_data = v.form_data := by
  simp only [linkFn]
  split <;> rfl

/-- When the intake checks pass and a profile with the submitted email
already exists, the submit route links exactly that profile: the email
lookup hits before the phone lookup or the provisioning branch are
considered, the visit row is appended and the link update applied, and the
route returns success. -/
theorem submit_existing_email (s : Store) (qrId : String)
    (fd : List (String × String)) (nid : String) (t : Nat) (e : String)
    (prof : Profile) (qr : QRCode) (form : Form)
    (he : (visitorFields fd).1 = some e)
    (hne : e.isEmpty = false)
    (hprof : maybeSingle s.profiles (fun p => p.email == some e) = some prof)
    (hsc : submitChecks s qrId = Except.ok (qr, form)) :
    submit s qrId fd nid t =
      ({ s with visits := (s.visits ++ [mkVisit qr form fd nid t]).map (linkFn nid prof.id t) },
       SubmitResult.ok nid) := by
  have ht : truthy (some e) = true := by simp [truthy, hne]
  have hvl : visitorLookup s.profiles (visitorFields fd).1 (visitorFields fd).2.1
      (visitorFields fd).2.2.1 (visitorFields fd).2.2.2 = Except.ok (some prof.id) := by
    simp only [visitorLookup, he, ht, if_true, hprof]
  unfold submit
  simp only [hsc, hvl]

/-- C7 amended: identity resolution is deterministic and ordered (email
lookup first, then phone, then the provisioning branch), and in this code
no identity record is ever created — the provisioning insert references an
unbound user identifier and faults — so deduplication holds only against
pre-existing identities: when a profile with the submitted email already
exists, two submissions carrying that same email both succeed and both
resulting visits are linked to that one identity, with the profiles table
unchanged throughout. -/
theorem C7_amended (s : Store) (qrId : String) (fd : List (String × String))
    (nid1 nid2 : String) (t1 t2 : Nat) (e : String) (prof : Profile)
    (qr : QRCode) (form : Form)
    (he : (visitorFields fd).1 = some e)
    (hne : e.isEmpty = false)
    (hprof : maybeSingle s.profiles (fun p => p.email == some e) = some prof)
    (hsc : submitChecks s qrId = Except.ok (qr, form)) :
    (submit s qrId fd nid1 t1).2 = SubmitResult.ok nid1 ∧
    (submit (submit s qrId fd nid1 t1).1 qrId fd nid2 t2).2 = SubmitResult.ok nid2 ∧
    (submit (submit s qrId fd nid1 t1).1 qrId fd nid2 t2).1.profiles = s.profiles ∧
    ∀ v ∈ (submit (submit s qrId fd nid1 t1).1 qrId fd nid2 t2).1.visits,
      v.id = nid1 ∨ v.id = nid2 → v.visitor_id = some prof.id := by
  have h1 := submit_existing_email s qrId fd nid1 t1 e prof qr form he hne hprof hsc
  have h1f : (submit s qrId fd nid1 t1).1
      = { s with visits := (s.visits ++ [mkVisit qr form fd nid1 t1]).map (linkFn nid1 prof.id t1) } := by
    rw [h1]
  have h2 := submit_existing_email
    { s with visits := (s.visits ++ [mkVisit qr form fd nid1 t1]).map (linkFn nid1 prof.id t1) }
    qrId fd nid2 t2 e prof qr form he hne hprof hsc
  refine ⟨by rw [h1], by rw [h1f, h2], by rw [h1f, h2], ?_⟩
  intro v hv hid
  rw [h1f, h2] at hv
  obtain ⟨w, hw, rfl⟩ := List.mem_map.mp hv
  rw [linkFn_id] at hid
  by_cases hw2 : (w.id == nid2) = true
  · simp [linkFn, hw2]
  · have hlw : linkFn nid2 prof.id t2 w = w := by simp [linkFn, hw2]
    rw [hlw]
    have hid1 : w.id = nid1 := by
      rcases hid with h | h
      · exact h
      · exact absurd (by simp [h]) hw2
    rcases List.mem_append.mp hw with hw3 | hw4
    · obtain ⟨u, hu, rfl⟩ := List.mem_map.mp hw3
      rw [linkFn_id] at hid1
      by_cases hu2 : (u.id == nid1) = true
      · simp [linkFn, hu2]
      · exact absurd (by simp [hid1]) hu2
    · rw [List.mem_singleton.mp hw4] at hw2
      simp [mkVisit] at hw2

/-- C7 counterexample: with no pre-existing identities, two submissions
carrying the same email do not end up linked to one shared identity: the
provisioning step faults on its unbound user reference, no identity record
is ever created, and both visits keep a null visitor_id — there is no
visitor identity that the two visits are linked to. -/
theorem C7_counterexample :
    (submit demoStore "QR1" c7Fd "V1" 1).2 = SubmitResult.err SubmitError.internalError ∧
    (submit (submit demoStore "QR1" c7Fd "V1" 1).1 "QR1" c7Fd "V2" 2).1.profiles = [] ∧
    (submit (submit demoStore "QR1" c7Fd "V1" 1).1 "QR1" c7Fd "V2" 2).1.visits.map Visit.visitor_id
      = [none, none] := by
  refine ⟨by decide, by decide, by decide⟩

/-- C7 witness: with the jane profile on record, two submissions with her
email both link to profile PR1 and no identity record is created. -/
theorem C7_witness :
    (submit (submit janeStore "QR1" c7Fd "V1" 1).1 "QR1" c7Fd "V2" 2).1.profiles = janeStore.profiles ∧
    ((submit (submit janeStore "QR1" c7Fd "V1" 1).1 "QR1" c7Fd "V2" 2).1.visits.headD pendingVisit).visitor_id
      = some "PR1" := by
  have h := C7_amended janeStore "QR1" c7Fd "V1" "V2" 1 2 "jane@x.com" janeProfile
    { id := "Q1", form_id := "F1", premise_id := "P1", qr_identifier := "QR1", is_active := true }
    { id := "F1", premise_id := "P1", is_active := true }
    (by decide) (by decide) (by decide) rfl
  exact ⟨h.2.2.1, h.2.2.2 _ (by decide) (by decide)⟩

/-- C8: the evaluation of the submit route at a submission carrying only a
full name (so that identity resolution reaches the provisioning branch):
the visit row is durably created with status checked_in and no identity
record is created, but the fault in the provisioning branch (an unbound
user identifier) escapes the per-step error handlers to the outer catch,
and the route answers with the generic internal error (HTTP 500) instead of
the success the specification requires. -/
theorem C8_code_evaluation :
    (submit demoStore "QR1" c8Fd "V1" 1).2 = SubmitResult.err SubmitError.internalError ∧
    (submit demoStore "QR1" c8Fd "V1" 1).1.visits.map (fun v => (v.id, v.status))
      = [("V1", "checked_in")] ∧
    (submit demoStore "QR1" c8Fd "V1" 1).1.profiles = [] ∧
    SubmitError.httpStatus SubmitError.internalError = 500 := by
  refine ⟨by decide, by decide, by decide, rfl⟩

/-- C9 amended: the normalized keys are used only to extract the identity
fields; the stored form_data of the created visit is the original
submission verbatim, without the normalized keys added. -/
theorem C9_amended (s : Store) (qrId : String) (fd : List (String × String))
    (nid : String) (t : Nat) (hfresh : ∀ v ∈ s.visits, v.id ≠ nid) :
    ∀ v ∈ (submit s qrId fd nid t).1.visits, v.id = nid → v.form_data = fd := by
  intro v hv hid
  rcases submit_visits_cases s qrId fd nid t with
    hc | ⟨qr, form, hc⟩ | ⟨qr, form, pid, hc⟩ <;> rw [hc] at hv
  · exact absurd hid (hfresh v hv)
  · rcases List.mem_append.mp hv with h1 | h2
    · exact absurd hid (hfresh v h1)
    · rw [List.mem_singleton.mp h2]
      rfl
  · obtain ⟨w, hw, rfl⟩ := List.mem_map.mp hv
    rw [linkFn_form_data]
    rw [linkFn_id] at hid
    rcases List.mem_append.mp hw with h1 | h2
    · exact absurd hid (hfresh w h1)
    · rw [List.mem_singleton.mp h2]
      rfl

/-- C9 counterexample: a successful submission with keys Full Name and
Email stores form_data equal to the original submission only; the canonical
normalized key full_name is present in the normalized object the route
computes, but absent from the stored form_data, contradicting the claim
that form_data contains both original and normalized keys. -/
theorem C9_counterexample :
    (submit janeStore "QR1" c9Fd "V1" 1).2 = SubmitResult.ok "V1" ∧
    (submit janeStore "QR1" c9Fd "V1" 1).1.visits.map Visit.form_data = [c9Fd] ∧
    objGet c9Fd "full_name" = none ∧
    objGet (normalizeObj c9Fd) "full_name" = some "Jane" := by
  refine ⟨by decide, by decide, by decide, by decide⟩

/-- C9 witness: the amended statement evaluated on the concrete successful
submission: the stored form_data is the original submission. -/
theorem C9_witness :
    ((submit janeStore "QR1" c9Fd "V1" 1).1.visits.headD pendingVisit).form_data = c9Fd :=
  C9_amended janeStore "QR1" c9Fd "V1" 1 (by decide) _ (by decide) (by decide)

end Ingia
